import Mathlib

/-!
# Admin dashboard (`frontend/src/App.js`)

A shallow embedding of the React component `App`: its five pieces of state,
the three asynchronous operations `fetchStats`, `fetchSubscribers` and
`addSubscriber`, the `useEffect` on `activeTab`, and the parts of the JSX that
decide what is shown.

Asynchronous functions are split at their single `await`: the part before it
(the operation's start) and the continuation that runs when the request settles.
A continuation keeps the variables its closure captured when the function was
invoked.  A number is represented by the text JavaScript prints for it
(`String(x)`), which is all the component does with a number besides testing
whether it is truthy or positive.
-/

namespace App

/-! ## JavaScript values -/

/-- Values that reach the component: parsed JSON bodies plus `undefined`.
The number `x` is `num t` with `t` the text `String(x)`: `num "1500"`,
`num "1500.5"`, `num "-2"`, `num "1e+21"`.  Every number has exactly one such
text, except that `-0` shares `"0"` with `0`; the component cannot tell the two
apart. -/
inductive JVal where
  | undefined : JVal
  | null : JVal
  | bool (b : Bool) : JVal
  | num (text : String) : JVal
  | str (s : String) : JVal
  | arr (xs : List JVal) : JVal
  | obj (fields : List (String × JVal)) : JVal

/-- Truthiness, as tested by `!x`, `x || y`, `x && y` and `x ? a : b`. -/
def JVal.truthy : JVal → Bool
  | .undefined => false
  | .null => false
  | .bool b => b
  | .num t => t != "0" && t != "NaN"
  | .str s => s != ""
  | .arr _ => true
  | .obj _ => true

/-- The expression `a || b`. -/
def JVal.or (a b : JVal) : JVal :=
  if a.truthy then a else b

/-- First binding of `key` in an object's field list. -/
def lookupField (key : String) : List (String × JVal) → Option JVal
  | [] => none
  | (k, v) :: rest => if k = key then some v else lookupField key rest

/-- Errors that stop a render: a `TypeError` thrown by an expression of the
component, React refusing a child, or a conversion this development does not
model. -/
inductive JsError where
  | typeError : JsError
  | invalidChild : JsError
  | unsupported : JsError
  deriving DecidableEq, Repr

/-- Property read `v.key` for the data keys used by the component (none of them
is a built-in property): throws on `null` and `undefined`, gives the field of an
object or `undefined` when it has none, and `undefined` on every other value. -/
def JVal.getProp (v : JVal) (key : String) : Except JsError JVal :=
  match v with
  | .undefined => .error .typeError
  | .null => .error .typeError
  | .obj fields => .ok ((lookupField key fields).getD .undefined)
  | _ => .ok .undefined

/-- The test `v > 0`.  Modelled on numbers, booleans, `null` and `undefined`;
for strings, arrays and objects, whose conversion to a number is not modelled,
evaluation stops with `unsupported`.  A number is positive when it is neither
`0` nor `NaN` and its text has no minus sign. -/
def JVal.gtZero : JVal → Except JsError Bool
  | .undefined => .ok false
  | .null => .ok false
  | .bool b => .ok b
  | .num t => .ok (t != "0" && t != "NaN" && t.toList.head? != some '-')
  | _ => .error .unsupported

mutual
/-- String conversion, as performed by a template literal `${v}`. -/
def JVal.toJsString : JVal → String
  | .undefined => "undefined"
  | .null => "null"
  | .bool b => if b then "true" else "false"
  | .num t => t
  | .str s => s
  | .arr xs => joinJs xs
  | .obj _ => "[object Object]"
/-- `Array.prototype.join(",")`: `null` and `undefined` elements give the empty string. -/
def joinJs : List JVal → String
  | [] => ""
  | x :: rest =>
    let head := match x with
      | .undefined => ""
      | .null => ""
      | y => JVal.toJsString y
    match rest with
    | [] => head
    | _ :: _ => head ++ "," ++ joinJs rest
end

mutual
/-- Text React puts in the document for one child value: nothing for booleans,
`null` and `undefined`, the text of a number or string, the children of an array
in order; `none` when React refuses the child (a plain object). -/
def JVal.childText : JVal → Option String
  | .undefined => some ""
  | .null => some ""
  | .bool _ => some ""
  | .num t => some t
  | .str s => some s
  | .arr xs => childrenText xs
  | .obj _ => none
/-- Text of a sequence of child values. -/
def childrenText : List JVal → Option String
  | [] => some ""
  | x :: rest =>
    match JVal.childText x, childrenText rest with
    | some a, some b => some (a ++ b)
    | _, _ => none
end

/-! ## State -/

/-- The values `activeTab` takes: `'stats'`, `'subscribers'` and `'add-subscriber'`. -/
inductive Tab where
  | stats : Tab
  | subscribers : Tab
  | addSubscriber : Tab
  deriving DecidableEq, Repr

/-- The `newSubscriber` form; `duration_days` is the result of `parseInt`
(`none` for `NaN`). -/
structure NewSubscriber where
  telegram_username : String
  email : String
  duration_days : Option Int
  deriving DecidableEq, Repr

/-- The three requests the component sends. -/
inductive Request where
  | getStats : Request
  | getSubscribers : Request
  | postAddSubscriber (body : NewSubscriber) : Request
  deriving DecidableEq, Repr

/-- Observable effects, in the order they happen. -/
inductive Effect where
  | request (id : Nat) (r : Request) : Effect
  | alert (msg : JVal) : Effect
  | consoleError (label : String) : Effect

/-- How an axios request settles: the promise rejects (network error, or a status
outside 2xx) or fulfils with `response.data`. -/
inductive Outcome where
  | rejected : Outcome
  | fulfilled (data : JVal) : Outcome

/-- The rest of an async function after its `await`.  The continuation of
`addSubscriber` carries the `activeTab` its closure captured. -/
inductive Cont where
  | fetchStats : Cont
  | fetchSubscribers : Cont
  | addSubscriber (activeTab : Tab) : Cont
  deriving DecidableEq, Repr

/-- A request in flight and the continuation waiting for it. -/
structure Pending where
  id : Nat
  cont : Cont
  deriving DecidableEq, Repr

/-- The component's state (`useState` hooks, lines 9-17) together with the
requests in flight, the number of requests initiated so far, and the effect log. -/
structure State where
  activeTab : Tab
  stats : JVal
  subscribers : JVal
  loading : Bool
  newSubscriber : NewSubscriber
  pending : List Pending
  nextId : Nat
  log : List Effect

/-- The form `{ telegram_username: '', email: '', duration_days: 30 }`. -/
def emptyForm : NewSubscriber :=
  { telegram_username := "", email := "", duration_days := some 30 }

/-- State of the hooks before the first effect runs. -/
def initial : State :=
  { activeTab := .stats, stats := .obj [], subscribers := .arr [], loading := false,
    newSubscriber := emptyForm, pending := [], nextId := 0, log := [] }

/-! ## Operations -/

/-- Send request `r`; `k` resumes when it settles. -/
def send (s : State) (r : Request) (k : Cont) : State :=
  { s with
    pending := s.pending ++ [{ id := s.nextId, cont := k }]
    nextId := s.nextId + 1
    log := s.log ++ [.request s.nextId r] }

/-- The call `alert(msg)`. -/
def alert (s : State) (msg : JVal) : State :=
  { s with log := s.log ++ [.alert msg] }

/-- The call `console.error(label, error)`. -/
def consoleError (s : State) (label : String) : State :=
  { s with log := s.log ++ [.consoleError label] }

/-- The function `fetchStats` up to its `await` (lines 19-22). -/
def fetchStats (s : State) : State :=
  send { s with loading := true } .getStats .fetchStats

/-- The function `fetchStats` from its `await` on (lines 22-28). -/
def fetchStatsResume (s : State) (o : Outcome) : State :=
  let s1 := match o with
    | .fulfilled data => { s with stats := data }
    | .rejected => consoleError s "Error fetching stats:"
  { s1 with loading := false }

/-- The function `fetchSubscribers` up to its `await` (lines 31-34). -/
def fetchSubscribers (s : State) : State :=
  send { s with loading := true } .getSubscribers .fetchSubscribers

/-- The function `fetchSubscribers` from its `await` on (lines 34-40). -/
def fetchSubscribersResume (s : State) (o : Outcome) : State :=
  let s1 := match o with
    | .fulfilled data =>
      match data.getProp "subscribers" with
      | .ok v => { s with subscribers := v }
      | .error _ => consoleError s "Error fetching subscribers:"
    | .rejected => consoleError s "Error fetching subscribers:"
  { s1 with loading := false }

/-- The validation test `!newSubscriber.telegram_username || !newSubscriber.email`. -/
def missingField (f : NewSubscriber) : Bool :=
  !(JVal.str f.telegram_username).truthy || !(JVal.str f.email).truthy

/-- The function `addSubscriber` up to its `await` (lines 43-51), reading the
`newSubscriber` and `activeTab` of the render it was created in. -/
def addSubscriber (s : State) : State :=
  if missingField s.newSubscriber then
    alert s (.str "Please fill in all fields")
  else
    send { s with loading := true } (.postAddSubscriber s.newSubscriber)
      (.addSubscriber s.activeTab)

/-- The `catch` block of `addSubscriber` (lines 66-68). -/
def addSubscriberCatch (s : State) : State :=
  alert (consoleError s "Error adding subscriber:")
    (.str "Error adding subscriber. Please try again.")

/-- The function `addSubscriber` from its `await` on (lines 51-71); `activeTab`
is the value captured at invocation. -/
def addSubscriberResume (s : State) (activeTab : Tab) (o : Outcome) : State :=
  let s1 := match o with
    | .rejected => addSubscriberCatch s
    | .fulfilled data =>
      match data.getProp "success" with
      | .error _ => addSubscriberCatch s
      | .ok success =>
        if success.truthy then
          let s2 := alert s (.str "Subscriber added successfully!")
          let s3 := { s2 with newSubscriber := emptyForm }
          if activeTab = Tab.subscribers then fetchSubscribers s3 else s3
        else
          match data.getProp "error" with
          | .error _ => addSubscriberCatch s
          | .ok e => alert s (e.or (.str "Error adding subscriber"))
  { s1 with loading := false }

/-- Body of the effect `useEffect(..., [activeTab])` (lines 74-80). -/
def activeTabEffect (s : State) : State :=
  match s.activeTab with
  | .stats => fetchStats s
  | .subscribers => fetchSubscribers s
  | .addSubscriber => s

/-- A navigation button's `onClick={() => setActiveTab(t)}` followed by the
re-render: the effect runs only when its dependency `activeTab` changed. -/
def selectView (s : State) (t : Tab) : State :=
  if t = s.activeTab then s else activeTabEffect { s with activeTab := t }

/-- The component after mounting: the effect runs once on the initial state. -/
def mount : State := activeTabEffect initial

/-- Resume continuation `k` with outcome `o`. -/
def resume (s : State) (k : Cont) (o : Outcome) : State :=
  match k with
  | .fetchStats => fetchStatsResume s o
  | .fetchSubscribers => fetchSubscribersResume s o
  | .addSubscriber activeTab => addSubscriberResume s activeTab o

/-! ## Events -/

/-- What can happen to the mounted component: the operator uses a rendered
control, or a request in flight settles. -/
inductive Event where
  | clickTab (t : Tab) : Event
  | clickRefresh : Event
  | clickAddSubscriber : Event
  | changeUsername (v : String) : Event
  | changeEmail (v : String) : Event
  | changeDuration (v : Option Int) : Event
  | settle (id : Nat) (o : Outcome) : Event

/-- One event.  `none` when the event cannot happen in `s`: the control is not
rendered on the active tab, the button is disabled by `loading`, or no request
with that id is in flight.  A throw while rendering is reported by `render`
below; `step` does not take the interface away after one, so it allows at least
the events the mounted component allows. -/
def step (s : State) : Event → Option State
  | .clickTab t => some (selectView s t)
  | .clickRefresh =>
    if s.activeTab = .subscribers ∧ s.loading = false then some (fetchSubscribers s) else none
  | .clickAddSubscriber =>
    if s.activeTab = .addSubscriber ∧ s.loading = false then some (addSubscriber s) else none
  | .changeUsername v =>
    if s.activeTab = .addSubscriber then
      some { s with newSubscriber := { s.newSubscriber with telegram_username := v } }
    else none
  | .changeEmail v =>
    if s.activeTab = .addSubscriber then
      some { s with newSubscriber := { s.newSubscriber with email := v } }
    else none
  | .changeDuration v =>
    if s.activeTab = .addSubscriber then
      some { s with newSubscriber := { s.newSubscriber with duration_days := v } }
    else none
  | .settle id o =>
    match s.pending.find? (fun p => p.id == id) with
    | none => none
    | some p => some (resume { s with pending := s.pending.filter (fun q => q.id != id) } p.cont o)

/-- Run a sequence of events. -/
def run (s : State) : List Event → Option State
  | [] => some s
  | e :: rest =>
    match step s e with
    | none => none
    | some s1 => run s1 rest

/-- States the mounted component can be in. -/
def Reachable (s : State) : Prop :=
  ∃ events, run mount events = some s

/-! ## Rendering -/

/-- One child of a JSX element: literal text, or the value of `{e}`. -/
inductive Child where
  | text (s : String) : Child
  | expr (v : JVal) : Child

/-- Text shown for the children of one element; `none` when React refuses one. -/
def cellText : List Child → Option String
  | [] => some ""
  | c :: rest =>
    let head := match c with
      | .text t => some t
      | .expr v => v.childText
    match head, cellText rest with
    | some a, some b => some (a ++ b)
    | _, _ => none

/-- The statistics tiles (lines 164-196): the spinner while `loading`, else the
four tiles. -/
inductive Tiles where
  | spinner (text : String) : Tiles
  | tiles (totalUsers activeSubscriptions expiredSubscriptions totalRevenue : List Child) : Tiles

/-- One row of the transaction table (lines 228-243); `created_at` is the
argument given to `formatDate`. -/
structure TransactionRow where
  telegram_user_id : List Child
  amount : List Child
  status : List Child
  created_at : JVal

/-- The recent-transactions panel (lines 207-250). -/
inductive Transactions where
  | table (rows : List TransactionRow) : Transactions
  | empty (text : String) : Transactions

/-- One row of the subscriber table (lines 302-318); `current_period_end` and
`created_at` are the arguments given to `formatDate`. -/
structure SubscriberRow where
  username : List Child
  email : List Child
  current_period_end : JVal
  amount : List Child
  created_at : JVal

/-- The body of the subscribers tab (lines 273-325). -/
inductive SubscriberList where
  | spinner (text : String) : SubscriberList
  | table (rows : List SubscriberRow) : SubscriberList
  | empty (text : String) : SubscriberList

/-- What the main content shows, by active tab. -/
inductive Screen where
  | stats (tiles : Tiles) (transactions : Transactions) : Screen
  | subscribers (refreshDisabled : Bool) (refreshLabel : String) (list : SubscriberList) : Screen
  | addSubscriber (form : NewSubscriber) (submitDisabled : Bool) (submitLabel : String) : Screen

/-- The tiles block (lines 164-196). -/
def renderTiles (s : State) : Except JsError Tiles :=
  if s.loading then
    .ok (.spinner "Loading statistics...")
  else do
    let totalUsers ← s.stats.getProp "total_users"
    let active ← s.stats.getProp "active_subscriptions"
    let expired ← s.stats.getProp "expired_subscriptions"
    let revenue ← s.stats.getProp "total_revenue"
    pure (.tiles [.expr (totalUsers.or (.num "0"))] [.expr (active.or (.num "0"))]
      [.expr (expired.or (.num "0"))] [.expr (revenue.or (.num "0")), .text " UAH"])

/-- The arrow function mapped over `stats.recent_transactions` (lines 227-244). -/
def transactionRow (transaction : JVal) : Except JsError TransactionRow := do
  let userId ← transaction.getProp "telegram_user_id"
  let amount ← transaction.getProp "amount"
  let currency ← transaction.getProp "currency"
  let status ← transaction.getProp "status"
  let createdAt ← transaction.getProp "created_at"
  pure { telegram_user_id := [.expr userId]
         amount := [.expr amount, .text " ", .expr currency]
         status := [.expr status]
         created_at := createdAt }

/-- The test `v.length > 0` (lines 207 and 278).  Reading `length` throws on
`null` and `undefined`; it is the number of elements of an array, the number of
characters of a string, the field `length` of an object, and `undefined` (not
positive) on booleans and numbers. -/
def nonEmpty (v : JVal) : Except JsError Bool :=
  match v with
  | .undefined => .error .typeError
  | .null => .error .typeError
  | .arr xs => .ok (decide (0 < xs.length))
  | .str t => .ok (decide (0 < t.length))
  | .obj fields => ((lookupField "length" fields).getD .undefined).gtZero
  | _ => .ok false

/-- The transactions panel (lines 207-250); calling `.map` on anything but an
array throws. -/
def renderTransactions (stats : JVal) : Except JsError Transactions := do
  let recent ← stats.getProp "recent_transactions"
  let filled ← if recent.truthy then nonEmpty recent else pure false
  if filled then
    match recent with
    | .arr xs => do
      let rows ← xs.mapM transactionRow
      pure (.table rows)
    | _ => throw .typeError
  else
    pure (.empty "No recent transactions")

/-- The arrow function mapped over `subscribers` (lines 301-319). -/
def subscriberRow (subscriber : JVal) : Except JsError SubscriberRow := do
  let username ← subscriber.getProp "telegram_username"
  let userId ← subscriber.getProp "telegram_user_id"
  let email ← subscriber.getProp "email"
  let periodEnd ← subscriber.getProp "current_period_end"
  let amount ← subscriber.getProp "amount"
  let currency ← subscriber.getProp "currency"
  let createdAt ← subscriber.getProp "created_at"
  pure { username := [.text "@", .expr (username.or (.str ("ID" ++ userId.toJsString)))]
         email := [.expr (email.or (.str "N/A"))]
         current_period_end := periodEnd
         amount := [.expr amount, .text " ", .expr currency]
         created_at := createdAt }

/-- The body of the subscribers tab (lines 273-325). -/
def renderSubscriberList (s : State) : Except JsError SubscriberList :=
  if s.loading then
    .ok (.spinner "Loading subscribers...")
  else do
    let filled ← nonEmpty s.subscribers
    if filled then
      match s.subscribers with
      | .arr xs => do
        let rows ← xs.mapM subscriberRow
        pure (.table rows)
      | _ => throw .typeError
    else
      pure (.empty "No active subscribers found")

/-- The main content of `App` (lines 153-409); an error means evaluating the
JSX threw. -/
def render (s : State) : Except JsError Screen :=
  match s.activeTab with
  | .stats => do
    let tiles ← renderTiles s
    let transactions ← renderTransactions s.stats
    pure (.stats tiles transactions)
  | .subscribers => do
    let list ← renderSubscriberList s
    pure (.subscribers s.loading (if s.loading then "Refreshing..." else "Refresh") list)
  | .addSubscriber =>
    .ok (.addSubscriber s.newSubscriber s.loading
      (if s.loading then "Adding Subscriber..." else "Add Subscriber"))

/-- Whether React accepts every child of one element. -/
def cellOk (children : List Child) : Bool :=
  (cellText children).isSome

/-- Whether React accepts every child of the tiles block. -/
def Tiles.childrenOk : Tiles → Bool
  | .spinner _ => true
  | .tiles totalUsers activeSubscriptions expiredSubscriptions totalRevenue =>
    cellOk totalUsers && cellOk activeSubscriptions && cellOk expiredSubscriptions &&
      cellOk totalRevenue

/-- Whether React accepts every child of a transaction row. -/
def TransactionRow.childrenOk (row : TransactionRow) : Bool :=
  cellOk row.telegram_user_id && cellOk row.amount && cellOk row.status

/-- Whether React accepts every child of the transactions panel. -/
def Transactions.childrenOk : Transactions → Bool
  | .table rows => rows.all TransactionRow.childrenOk
  | .empty _ => true

/-- Whether React accepts every child of a subscriber row. -/
def SubscriberRow.childrenOk (row : SubscriberRow) : Bool :=
  cellOk row.username && cellOk row.email && cellOk row.amount

/-- Whether React accepts every child of the subscribers tab body. -/
def SubscriberList.childrenOk : SubscriberList → Bool
  | .spinner _ => true
  | .table rows => rows.all SubscriberRow.childrenOk
  | .empty _ => true

/-- Whether React accepts every child of the screen. -/
def Screen.childrenOk : Screen → Bool
  | .stats tiles transactions => tiles.childrenOk && transactions.childrenOk
  | .subscribers _ _ list => list.childrenOk
  | .addSubscriber _ _ _ => true

/-- What ends up on the page: the JSX is evaluated (`render`) and React then
puts the elements in the document, throwing when a child is a plain object.
Either failure takes the whole component off the page. -/
def display (s : State) : Except JsError Screen :=
  match render s with
  | .error e => .error e
  | .ok screen => if screen.childrenOk then .ok screen else .error .invalidChild

/-- Values React shows as text or as nothing: all but arrays and objects. -/
def JVal.isScalar : JVal → Bool
  | .arr _ => false
  | .obj _ => false
  | _ => true

/-- Whether the most recently initiated request is still in flight; requests are
numbered in the order they are initiated. -/
def latestInFlight (s : State) : Bool :=
  s.pending.any (fun p => p.id + 1 == s.nextId)

/-- Whether the event is a request settling (the rest are operator actions). -/
def Event.isSettle : Event → Bool
  | .settle _ _ => true
  | _ => false

/-! ## Invariants -/

/-- While `loading` is set some request is in flight. -/
def LoadingHasRequest (s : State) : Prop :=
  s.loading = true → s.pending ≠ []

/-- Every continuation of `addSubscriber` in flight captured the add-subscriber tab. -/
def CapturedAddTab (s : State) : Prop :=
  ∀ p ∈ s.pending, ∀ tab, p.cont = .addSubscriber tab → tab = Tab.addSubscriber

/-! ## Concrete states and bodies used in examples -/

/-- Statistics body of the scenario in the specification. -/
def scenarioStats : JVal :=
  .obj [("total_users", .num "5"), ("active_subscriptions", .num "3"),
    ("expired_subscriptions", .num "2"), ("total_revenue", .num "1500"),
    ("recent_transactions", .arr [])]

/-- The operator waits for the first statistics, opens the add-subscriber tab
and fills the form in. -/
def fillForm : List Event :=
  [.settle 0 (.fulfilled scenarioStats), .clickTab .addSubscriber,
    .changeUsername "alice", .changeEmail "a@x.com"]

/-- State after `fillForm`: nothing in flight, form filled in. -/
def formFilled : State :=
  { activeTab := .addSubscriber, stats := scenarioStats, subscribers := .arr [],
    loading := false,
    newSubscriber := { telegram_username := "alice", email := "a@x.com", duration_days := some 30 },
    pending := [], nextId := 1, log := [.request 0 .getStats] }

/-- After `fillForm` the operator submits and, while the request is in flight,
opens the subscribers tab. -/
def submitThenSwitch : List Event :=
  fillForm ++ [.clickAddSubscriber, .clickTab .subscribers]

/-- State after `submitThenSwitch`: the add request (id 1) and the subscriber
fetch started by the tab switch (id 2) are in flight, the subscribers tab is active. -/
def switchedWhileAdding : State :=
  { activeTab := .subscribers, stats := scenarioStats, subscribers := .arr [],
    loading := true,
    newSubscriber := { telegram_username := "alice", email := "a@x.com", duration_days := some 30 },
    pending := [{ id := 1, cont := .addSubscriber .addSubscriber },
      { id := 2, cont := .fetchSubscribers }],
    nextId := 3,
    log := [.request 0 .getStats,
      .request 1 (.postAddSubscriber
        { telegram_username := "alice", email := "a@x.com", duration_days := some 30 }),
      .request 2 .getSubscribers] }

/-! ## Lemmas -/

theorem missingField_iff (f : NewSubscriber) :
    missingField f = true ↔ f.telegram_username = "" ∨ f.email = "" := by
  simp [missingField, JVal.truthy]

theorem resume_loading (s : State) (k : Cont) (o : Outcome) :
    (resume s k o).loading = false := by
  cases k <;> rfl

theorem run_append (s : State) (xs ys : List Event) :
    run s (xs ++ ys) = (run s xs).bind (fun t => run t ys) := by
  induction xs generalizing s with
  | nil => rfl
  | cons e rest ih =>
    simp only [List.cons_append, run]
    cases step s e with
    | none => rfl
    | some s1 => exact ih s1

theorem formFilled_reachable : Reachable formFilled := ⟨fillForm, rfl⟩

theorem switchedWhileAdding_reachable : Reachable switchedWhileAdding :=
  ⟨submitThenSwitch, rfl⟩

theorem send_pending_ne_nil (s : State) (r : Request) (k : Cont) :
    (send s r k).pending ≠ [] := by
  simp [send]

theorem step_loadingHasRequest (s s1 : State) (e : Event) (h : step s e = some s1)
    (hs : LoadingHasRequest s) : LoadingHasRequest s1 := by
  cases e with
  | clickTab t =>
    simp only [step, Option.some.injEq] at h
    subst h
    unfold selectView
    split
    · exact hs
    · unfold activeTabEffect
      cases t
      · exact fun _ => send_pending_ne_nil _ _ _
      · exact fun _ => send_pending_ne_nil _ _ _
      · exact hs
  | clickRefresh =>
    simp only [step] at h
    split at h
    · cases h
      exact fun _ => send_pending_ne_nil _ _ _
    · cases h
  | clickAddSubscriber =>
    simp only [step] at h
    split at h
    · cases h
      unfold addSubscriber
      split
      · exact hs
      · exact fun _ => send_pending_ne_nil _ _ _
    · cases h
  | changeUsername v =>
    simp only [step] at h
    split at h
    · cases h; exact hs
    · cases h
  | changeEmail v =>
    simp only [step] at h
    split at h
    · cases h; exact hs
    · cases h
  | changeDuration v =>
    simp only [step] at h
    split at h
    · cases h; exact hs
    · cases h
  | settle id o =>
    simp only [step] at h
    split at h
    · cases h
    · cases h
      intro hl
      rw [resume_loading] at hl
      cases hl

theorem run_loadingHasRequest (events : List Event) (s s1 : State)
    (h : run s events = some s1) (hs : LoadingHasRequest s) : LoadingHasRequest s1 := by
  induction events generalizing s with
  | nil =>
    simp only [run, Option.some.injEq] at h
    subst h
    exact hs
  | cons e rest ih =>
    simp only [run] at h
    split at h
    · cases h
    · next s2 h2 => exact ih s2 h (step_loadingHasRequest s s2 e h2 hs)

theorem reachable_idle (s : State) (h : Reachable s) (hp : s.pending = []) :
    s.loading = false := by
  obtain ⟨events, hrun⟩ := h
  have hinv : LoadingHasRequest s :=
    run_loadingHasRequest events mount s hrun (fun _ => by decide)
  cases hl : s.loading with
  | false => rfl
  | true => exact absurd hp (hinv hl)

theorem resume_pending (s : State) (k : Cont) (o : Outcome) :
    (resume s k o).pending = s.pending ∨
      (resume s k o).pending = s.pending ++ [{ id := s.nextId, cont := .fetchSubscribers }] := by
  cases k with
  | fetchStats => cases o <;> exact Or.inl rfl
  | fetchSubscribers =>
    cases o with
    | rejected => exact Or.inl rfl
    | fulfilled data =>
      simp only [resume, fetchSubscribersResume]
      cases data.getProp "subscribers" <;> exact Or.inl rfl
  | addSubscriber tab =>
    cases o with
    | rejected => exact Or.inl rfl
    | fulfilled data =>
      simp only [resume, addSubscriberResume]
      cases data.getProp "success" with
      | error e => exact Or.inl rfl
      | ok success =>
        by_cases ht : success.truthy = true
        · by_cases hs : tab = Tab.subscribers
          · simp only [ht, hs, if_true]
            exact Or.inr rfl
          · simp only [ht, hs, if_true, if_false]
            exact Or.inl rfl
        · simp only [ht, if_false]
          cases data.getProp "error" <;> exact Or.inl rfl

theorem step_capturedAddTab (s s1 : State) (e : Event) (h : step s e = some s1)
    (hs : CapturedAddTab s) : CapturedAddTab s1 := by
  cases e with
  | clickTab t =>
    simp only [step, Option.some.injEq] at h
    subst h
    unfold selectView
    split
    · exact hs
    · unfold activeTabEffect
      cases t
      · intro p hp tab hc
        simp only [fetchStats, send, List.mem_append, List.mem_singleton] at hp
        rcases hp with hp | hp
        · exact hs p hp tab hc
        · subst hp; cases hc
      · intro p hp tab hc
        simp only [fetchSubscribers, send, List.mem_append, List.mem_singleton] at hp
        rcases hp with hp | hp
        · exact hs p hp tab hc
        · subst hp; cases hc
      · exact hs
  | clickRefresh =>
    simp only [step] at h
    split at h
    · cases h
      intro p hp tab hc
      simp only [fetchSubscribers, send, List.mem_append, List.mem_singleton] at hp
      rcases hp with hp | hp
      · exact hs p hp tab hc
      · subst hp; cases hc
    · cases h
  | clickAddSubscriber =>
    simp only [step] at h
    split at h
    · next hg =>
      cases h
      unfold addSubscriber
      split
      · exact hs
      · intro p hp tab hc
        simp only [send, List.mem_append, List.mem_singleton] at hp
        rcases hp with hp | hp
        · exact hs p hp tab hc
        · subst hp
          cases hc
          exact hg.1
    · cases h
  | changeUsername v =>
    simp only [step] at h
    split at h
    · cases h; exact hs
    · cases h
  | changeEmail v =>
    simp only [step] at h
    split at h
    · cases h; exact hs
    · cases h
  | changeDuration v =>
    simp only [step] at h
    split at h
    · cases h; exact hs
    · cases h
  | settle id o =>
    simp only [step] at h
    split at h
    · cases h
    · next p hfind =>
      cases h
      intro q hq tab hc
      have hfilter : ∀ q ∈ s.pending.filter (fun q => q.id != id), q ∈ s.pending :=
        fun q hq => (List.mem_filter.mp hq).1
      rcases resume_pending { s with pending := s.pending.filter (fun q => q.id != id) }
        p.cont o with hr | hr
      · rw [hr] at hq
        exact hs q (hfilter q hq) tab hc
      · rw [hr] at hq
        simp only [List.mem_append, List.mem_singleton] at hq
        rcases hq with hq | hq
        · exact hs q (hfilter q hq) tab hc
        · subst hq; cases hc

theorem run_capturedAddTab (events : List Event) (s s1 : State)
    (h : run s events = some s1) (hs : CapturedAddTab s) : CapturedAddTab s1 := by
  induction events generalizing s with
  | nil =>
    simp only [run, Option.some.injEq] at h
    subst h
    exact hs
  | cons e rest ih =>
    simp only [run] at h
    split at h
    · cases h
    · next s2 h2 => exact ih s2 h (step_capturedAddTab s s2 e h2 hs)

theorem mount_capturedAddTab : CapturedAddTab mount := by
  intro p hp tab hc
  simp only [mount, activeTabEffect, initial, fetchStats, send, List.nil_append,
    List.mem_singleton] at hp
  subst hp
  cases hc

theorem selectView_same (s : State) (t : Tab) (h : t = s.activeTab) :
    selectView s t = s := by
  unfold selectView
  rw [if_pos h]

/-! ## Claims -/

/-- C1: `addSubscriber` called with an empty `telegram_username` or an empty
`email` sends no request, alerts 'Please fill in all fields', and leaves `stats`,
`subscribers`, the form, `loading`, the active tab and the requests in flight as
they were: the only difference is the alert appended to the effect log. -/
theorem addSubscriber_missing_field (s : State)
    (h : s.newSubscriber.telegram_username = "" ∨ s.newSubscriber.email = "") :
    addSubscriber s =
      { s with log := s.log ++ [.alert (.str "Please fill in all fields")] } := by
  unfold addSubscriber
  rw [if_pos ((missingField_iff s.newSubscriber).mpr h)]
  rfl

theorem addSubscriber_missing_field_witness :
    (initial.newSubscriber.telegram_username = "" ∨ initial.newSubscriber.email = "") ∧
      addSubscriber initial =
        { initial with log := initial.log ++ [.alert (.str "Please fill in all fields")] } :=
  ⟨Or.inl rfl, addSubscriber_missing_field initial (Or.inl rfl)⟩

/-- C2 (evaluated at the failing input): the operator submits a valid form on the
add-subscriber tab and opens the subscribers tab while the request is in flight.
When the response `{ success: true }` arrives the active view is Subscribers, yet
the completion only shows the confirmation and resets the form: it sends no
request, so no subscriber-list fetch follows the add request. -/
theorem add_success_on_subscribers_tab_no_fetch :
    run mount submitThenSwitch = some switchedWhileAdding ∧
      switchedWhileAdding.activeTab = Tab.subscribers ∧
      step switchedWhileAdding (.settle 1 (.fulfilled (.obj [("success", .bool true)]))) =
        some { switchedWhileAdding with
          loading := false
          newSubscriber := emptyForm
          pending := [{ id := 2, cont := .fetchSubscribers }]
          log := switchedWhileAdding.log ++ [.alert (.str "Subscriber added successfully!")] } :=
  ⟨rfl, rfl, rfl⟩

/-- C3 as stated fails: pressing the Statistics button while the statistics view
is already active changes nothing and sends no request. -/
theorem selectView_same_view_no_fetch :
    mount.activeTab = Tab.stats ∧ selectView mount Tab.stats = mount ∧
      (selectView mount Tab.stats).log = [.request 0 .getStats] ∧
      (selectView mount Tab.stats).nextId = 1 :=
  ⟨rfl, rfl, rfl, rfl⟩

/-- C3 (amended): selecting a view other than the active one sets `activeTab` to
it and sends exactly one statistics request for Stats, exactly one
subscriber-list request for Subscribers and nothing for AddSubscriber; selecting
the view again then leaves the state as it is and sends nothing. -/
theorem selectView_other_view (s : State) (t : Tab) (h : t ≠ s.activeTab) :
    (selectView s t).activeTab = t ∧
      (selectView s t).log = s.log ++
        (match t with
          | .stats => [.request s.nextId .getStats]
          | .subscribers => [.request s.nextId .getSubscribers]
          | .addSubscriber => []) ∧
      selectView (selectView s t) t = selectView s t := by
  have hact : (selectView s t).activeTab = t := by
    unfold selectView
    rw [if_neg h]
    cases t <;> rfl
  refine ⟨hact, ?_, ?_⟩
  · unfold selectView
    rw [if_neg h]
    cases t
    · rfl
    · rfl
    · simp [activeTabEffect]
  · exact selectView_same _ t hact.symm

theorem selectView_other_view_witness :
    Tab.subscribers ≠ mount.activeTab ∧
      (selectView mount Tab.subscribers).activeTab = Tab.subscribers ∧
      (selectView mount Tab.subscribers).log = mount.log ++ [.request mount.nextId .getSubscribers] ∧
      selectView (selectView mount Tab.subscribers) Tab.subscribers =
        selectView mount Tab.subscribers :=
  ⟨by decide, selectView_other_view mount Tab.subscribers (by decide)⟩

theorem addSubscriberResume_falsy (s : State) (tab : Tab) (data success e : JVal)
    (h1 : data.getProp "success" = .ok success) (h2 : success.truthy = false)
    (h3 : data.getProp "error" = .ok e) :
    addSubscriberResume s tab (.fulfilled data) =
      { s with loading := false
               log := s.log ++ [.alert (e.or (.str "Error adding subscriber"))] } := by
  simp only [addSubscriberResume, h1, h2, h3]
  rfl

/-- C4 as stated fails for malformed bodies.  A subscriber response `{}` (no
`subscribers` sequence) replaces the list `[]` by `undefined`, after which the
subscribers tab throws on `subscribers.length`; a statistics response `null`
replaces the snapshot `{}` by `null`, after which the statistics tab throws on
`stats.total_users`. -/
theorem malformed_body_replaces_data :
    mount.subscribers = .arr [] ∧ mount.stats = .obj [] ∧
      (run mount [.clickTab .subscribers, .settle 1 (.fulfilled (.obj []))]).map
        (fun s => s.subscribers) = some .undefined ∧
      (run mount [.clickTab .subscribers, .settle 1 (.fulfilled (.obj []))]).map render =
        some (.error .typeError) ∧
      (run mount [.settle 0 (.fulfilled .null)]).map (fun s => s.stats) = some .null ∧
      (run mount [.settle 0 (.fulfilled .null)]).map render = some (.error .typeError) :=
  ⟨rfl, rfl, rfl, rfl, rfl, rfl⟩

/-- C4 (amended): a read whose request rejects (network unreachable, status
outside 2xx), and a subscriber read whose body is `null` or `undefined`, leaves
`stats` and `subscribers` as they were: the error is logged and `loading`
cleared, nothing else changes.  A fulfilled response is stored unvalidated: the
statistics body replaces `stats` whatever it is, and the `subscribers` field of
any other subscriber body replaces the list, `undefined` when there is none. -/
theorem failed_read_keeps_data (s : State) :
    fetchStatsResume s .rejected =
        { s with loading := false, log := s.log ++ [.consoleError "Error fetching stats:"] } ∧
      fetchSubscribersResume s .rejected =
        { s with loading := false
                 log := s.log ++ [.consoleError "Error fetching subscribers:"] } ∧
      fetchSubscribersResume s (.fulfilled .null) =
        { s with loading := false
                 log := s.log ++ [.consoleError "Error fetching subscribers:"] } ∧
      fetchSubscribersResume s (.fulfilled .undefined) =
        { s with loading := false
                 log := s.log ++ [.consoleError "Error fetching subscribers:"] } ∧
      (∀ data, fetchStatsResume s (.fulfilled data) =
        { s with loading := false, stats := data }) ∧
      (∀ fields, fetchSubscribersResume s (.fulfilled (.obj fields)) =
        { s with loading := false
                 subscribers := (lookupField "subscribers" fields).getD .undefined }) :=
  ⟨rfl, rfl, rfl, rfl, fun _ => rfl, fun _ => rfl⟩

/-- C5: a validated submission that does not succeed alerts exactly one notice
and changes nothing but `loading` (cleared) and the log; the confirmation is not
shown and the form is kept.  With a falsy `success` (false or absent) the notice
is the response's `error` when it carries a non-empty message, and 'Error adding
subscriber' when it carries none; when the request rejects, or the body is
`null`, the notice is 'Error adding subscriber. Please try again.'. -/
theorem addSubscriber_failure_notice (s : State) (tab : Tab) :
    (∀ fields m, ((lookupField "success" fields).getD .undefined).truthy = false →
        lookupField "error" fields = some (.str m) → m ≠ "" →
        addSubscriberResume s tab (.fulfilled (.obj fields)) =
          { s with loading := false, log := s.log ++ [.alert (.str m)] }) ∧
      (∀ fields, ((lookupField "success" fields).getD .undefined).truthy = false →
        ((lookupField "error" fields).getD .undefined).truthy = false →
        addSubscriberResume s tab (.fulfilled (.obj fields)) =
          { s with loading := false
                   log := s.log ++ [.alert (.str "Error adding subscriber")] }) ∧
      addSubscriberResume s tab .rejected =
        { s with loading := false
                 log := s.log ++ [.consoleError "Error adding subscriber:",
                   .alert (.str "Error adding subscriber. Please try again.")] } ∧
      addSubscriberResume s tab (.fulfilled .null) =
        { s with loading := false
                 log := s.log ++ [.consoleError "Error adding subscriber:",
                   .alert (.str "Error adding subscriber. Please try again.")] } := by
  refine ⟨?_, ?_, ?_, ?_⟩
  · intro fields m hs he hm
    rw [addSubscriberResume_falsy s tab (.obj fields) _ (.str m) rfl hs
      (by simp [JVal.getProp, he])]
    have hor : (JVal.str m).or (.str "Error adding subscriber") = .str m := by
      simp [JVal.or, JVal.truthy, hm]
    rw [hor]
  · intro fields hs he
    rw [addSubscriberResume_falsy s tab (.obj fields) _ _ rfl hs rfl]
    have hor : ((lookupField "error" fields).getD .undefined).or
        (.str "Error adding subscriber") = .str "Error adding subscriber" := by
      simp [JVal.or, he]
    rw [hor]
  · simp [addSubscriberResume, addSubscriberCatch, alert, consoleError]
  · simp [addSubscriberResume, addSubscriberCatch, alert, consoleError, JVal.getProp]

theorem addSubscriber_failure_notice_witness :
    addSubscriberResume formFilled .addSubscriber
        (.fulfilled (.obj [("success", .bool false), ("error", .str "User not found")])) =
      { formFilled with loading := false
                        log := formFilled.log ++ [.alert (.str "User not found")] } :=
  (addSubscriber_failure_notice formFilled .addSubscriber).1
    [("success", .bool false), ("error", .str "User not found")] "User not found"
    rfl rfl (by decide)

theorem render_addSubscriber_idle (t : State) (h1 : t.activeTab = Tab.addSubscriber)
    (h2 : t.loading = false) :
    render t = .ok (.addSubscriber t.newSubscriber false "Add Subscriber") := by
  simp [render, h1, h2]

theorem render_subscribers_idle (t : State) (h1 : t.activeTab = Tab.subscribers)
    (h2 : t.loading = false) (scr : Screen) (h : render t = .ok scr) :
    ∃ list, scr = .subscribers false "Refresh" list := by
  simp only [render, h1, h2] at h
  cases hl : renderSubscriberList t with
  | error e =>
    rw [hl] at h
    cases h
  | ok list =>
    rw [hl] at h
    cases h
    exact ⟨list, rfl⟩

/-- C6: take an add-subscriber attempt started in a reachable state with no
request in flight.  If validation fails, `loading` is false after the call.
Otherwise the call puts one request in flight; whatever happens while it is in
flight, when it settles (success, `success: false` or rejection, with or without
a follow-up subscriber fetch) `loading` is false, so the submit button on the
add-subscriber tab and the Refresh button on the subscribers tab, both
`disabled={loading}`, are enabled. -/
theorem addSubscriber_attempt_clears_loading (s : State) (hr : Reachable s)
    (hp : s.pending = []) :
    (missingField s.newSubscriber = true → (addSubscriber s).loading = false) ∧
      (missingField s.newSubscriber = false →
        (addSubscriber s).pending = [{ id := s.nextId, cont := .addSubscriber s.activeTab }] ∧
        ∀ events t o, run (addSubscriber s) events = some t →
          t.pending.find? (fun p => p.id == s.nextId) =
            some { id := s.nextId, cont := .addSubscriber s.activeTab } →
          ∃ t1, step t (.settle s.nextId o) = some t1 ∧ t1.loading = false ∧
            (t1.activeTab = Tab.addSubscriber →
              render t1 = .ok (.addSubscriber t1.newSubscriber false "Add Subscriber")) ∧
            (t1.activeTab = Tab.subscribers → ∀ scr, render t1 = .ok scr →
              ∃ list, scr = .subscribers false "Refresh" list)) := by
  constructor
  · intro hm
    unfold addSubscriber
    rw [if_pos hm]
    exact reachable_idle s hr hp
  · intro hm
    constructor
    · unfold addSubscriber
      simp [hm, send, hp]
    · intro events t o _ hfind
      have hl : (resume { t with pending := t.pending.filter (fun q => q.id != s.nextId) }
          (Cont.addSubscriber s.activeTab) o).loading = false := resume_loading _ _ _
      refine ⟨_, by simp only [step, hfind], hl, ?_, ?_⟩
      · intro ha
        exact render_addSubscriber_idle _ ha hl
      · intro ha scr hscr
        exact render_subscribers_idle _ ha hl scr hscr

theorem addSubscriber_attempt_clears_loading_witness :
    Reachable formFilled ∧ formFilled.pending = [] ∧
      missingField formFilled.newSubscriber = false ∧
      ∃ t1, step switchedWhileAdding
          (.settle 1 (.fulfilled (.obj [("success", .bool true)]))) = some t1 ∧
        t1.loading = false :=
  ⟨formFilled_reachable, rfl, rfl,
    let ⟨t1, h1, h2, _⟩ :=
      (addSubscriber_attempt_clears_loading formFilled formFilled_reachable rfl).2 rfl |>.2
        [.clickTab .subscribers] switchedWhileAdding
        (.fulfilled (.obj [("success", .bool true)])) rfl rfl
    ⟨t1, h1, h2⟩⟩

/-- C7 as stated fails: after mounting (statistics request 0), the operator
opens the subscribers tab (request 1, the most recently initiated) and request 0
is rejected.  `loading` is now false although the most recently initiated
request is still in flight. -/
theorem loading_cleared_by_older_request :
    (run mount [.clickTab .subscribers, .settle 0 .rejected]).map
        (fun s => (s.loading, latestInFlight s, s.pending)) =
      some (false, true, [{ id := 1, cont := .fetchSubscribers }]) := by
  decide

/-- C7 (amended): every request start sets `loading` and every request that
settles clears it, whichever request settles (the most recently initiated or an
older one); no other event changes it.  So `loading` is what the latest start or
completion wrote, not the in-flight status of the most recently initiated
request.  (`nextId` counts the requests initiated, so an operator action started
a request exactly when it changed `nextId`.) -/
theorem loading_last_writer (s s1 : State) (e : Event) (h : step s e = some s1) :
    (e.isSettle = true → s1.loading = false) ∧
      (e.isSettle = false → s1.nextId ≠ s.nextId → s1.loading = true) ∧
      (e.isSettle = false → s1.nextId = s.nextId → s1.loading = s.loading) := by
  cases e with
  | clickTab t =>
    simp only [step, Option.some.injEq] at h
    subst h
    refine ⟨fun hc => (by cases hc), ?_, ?_⟩
    · intro _ hn
      unfold selectView at hn ⊢
      split
      · next heq => rw [if_pos heq] at hn; exact absurd rfl hn
      · next hne =>
        rw [if_neg hne] at hn
        cases t
        · rfl
        · rfl
        · exact absurd rfl hn
    · intro _ hn
      unfold selectView at hn ⊢
      split
      · rfl
      · next hne =>
        rw [if_neg hne] at hn
        cases t
        · simp [activeTabEffect, fetchStats, send] at hn
        · simp [activeTabEffect, fetchSubscribers, send] at hn
        · rfl
  | clickRefresh =>
    simp only [step] at h
    split at h
    · cases h
      refine ⟨fun hc => (by cases hc), fun _ _ => rfl, ?_⟩
      intro _ hn
      simp [fetchSubscribers, send] at hn
    · cases h
  | clickAddSubscriber =>
    simp only [step] at h
    split at h
    · cases h
      refine ⟨fun hc => (by cases hc), ?_, ?_⟩
      · intro _ hn
        unfold addSubscriber at hn ⊢
        split
        · next hm => rw [if_pos hm] at hn; exact absurd rfl hn
        · rfl
      · intro _ hn
        unfold addSubscriber at hn ⊢
        split
        · rfl
        · next hm =>
          rw [if_neg hm] at hn
          simp [send] at hn
    · cases h
  | changeUsername v =>
    simp only [step] at h
    split at h
    · cases h
      exact ⟨fun hc => (by cases hc), fun _ hn => absurd rfl hn, fun _ _ => rfl⟩
    · cases h
  | changeEmail v =>
    simp only [step] at h
    split at h
    · cases h
      exact ⟨fun hc => (by cases hc), fun _ hn => absurd rfl hn, fun _ _ => rfl⟩
    · cases h
  | changeDuration v =>
    simp only [step] at h
    split at h
    · cases h
      exact ⟨fun hc => (by cases hc), fun _ hn => absurd rfl hn, fun _ _ => rfl⟩
    · cases h
  | settle id o =>
    simp only [step] at h
    split at h
    · cases h
    · cases h
      exact ⟨fun _ => resume_loading _ _ _, fun hc => (by cases hc), fun hc => (by cases hc)⟩

theorem loading_last_writer_witness :
    step switchedWhileAdding (.settle 1 .rejected) =
        some { switchedWhileAdding with
          loading := false
          pending := [{ id := 2, cont := .fetchSubscribers }]
          log := switchedWhileAdding.log ++ [.consoleError "Error adding subscriber:",
            .alert (.str "Error adding subscriber. Please try again.")] } ∧
      ({ switchedWhileAdding with
          loading := false
          pending := [{ id := 2, cont := .fetchSubscribers }]
          log := switchedWhileAdding.log ++ [.consoleError "Error adding subscriber:",
            .alert (.str "Error adding subscriber. Please try again.")] } : State).loading =
        false :=
  ⟨rfl, (loading_last_writer switchedWhileAdding _ (.settle 1 .rejected) rfl).1 rfl⟩

theorem scalar_childText (v : JVal) (h : v.isScalar = true) : ∃ t, v.childText = some t := by
  cases v with
  | undefined => exact ⟨_, rfl⟩
  | null => exact ⟨_, rfl⟩
  | bool b => exact ⟨_, rfl⟩
  | num t => exact ⟨_, rfl⟩
  | str t => exact ⟨_, rfl⟩
  | arr xs => cases h
  | obj fields => cases h

theorem or_isScalar (a b : JVal) (ha : a.isScalar = true) (hb : b.isScalar = true) :
    (a.or b).isScalar = true := by
  unfold JVal.or
  split
  · exact ha
  · exact hb

theorem cellOk_expr (v : JVal) (h : v.isScalar = true) : cellOk [.expr v] = true := by
  obtain ⟨t, ht⟩ := scalar_childText v h
  simp [cellOk, cellText, ht]

theorem cellOk_expr_text (v : JVal) (t : String) (h : v.isScalar = true) :
    cellOk [.expr v, .text t] = true := by
  obtain ⟨u, hu⟩ := scalar_childText v h
  simp [cellOk, cellText, hu]

theorem cellOk_text_expr (t : String) (v : JVal) (h : v.isScalar = true) :
    cellOk [.text t, .expr v] = true := by
  obtain ⟨u, hu⟩ := scalar_childText v h
  simp [cellOk, cellText, hu]

theorem cellOk_expr_text_expr (v w : JVal) (t : String) (hv : v.isScalar = true)
    (hw : w.isScalar = true) : cellOk [.expr v, .text t, .expr w] = true := by
  obtain ⟨a, ha⟩ := scalar_childText v hv
  obtain ⟨b, hb⟩ := scalar_childText w hw
  simp [cellOk, cellText, ha, hb]

theorem orZero_absent (fields : List (String × JVal)) (key : String)
    (h : lookupField key fields = none) :
    ((lookupField key fields).getD .undefined).or (.num "0") = .num "0" := by
  rw [h]
  rfl

theorem orZero_number (fields : List (String × JVal)) (key t : String) (h0 : t ≠ "0")
    (hn : t ≠ "NaN") (h : lookupField key fields = some (.num t)) :
    ((lookupField key fields).getD .undefined).or (.num "0") = .num t := by
  rw [h]
  simp [JVal.or, JVal.truthy, h0, hn]

theorem renderTransactions_empty (fields : List (String × JVal))
    (h : lookupField "recent_transactions" fields = none ∨
      lookupField "recent_transactions" fields = some (.arr [])) :
    renderTransactions (.obj fields) = .ok (.empty "No recent transactions") := by
  rcases h with h | h <;> simp [renderTransactions, JVal.getProp, h] <;> rfl

theorem render_stats_settled (s : State) (fields : List (String × JVal)) (tr : Transactions)
    (htab : s.activeTab = Tab.stats) (htr : renderTransactions (.obj fields) = .ok tr) :
    render (fetchStatsResume s (.fulfilled (.obj fields))) =
      .ok (.stats
        (.tiles
          [.expr (((lookupField "total_users" fields).getD .undefined).or (.num "0"))]
          [.expr (((lookupField "active_subscriptions" fields).getD .undefined).or (.num "0"))]
          [.expr (((lookupField "expired_subscriptions" fields).getD .undefined).or (.num "0"))]
          [.expr (((lookupField "total_revenue" fields).getD .undefined).or (.num "0")),
            .text " UAH"])
        tr) := by
  have h1 : (fetchStatsResume s (.fulfilled (.obj fields))).activeTab = Tab.stats := htab
  have h2 : (fetchStatsResume s (.fulfilled (.obj fields))).stats = .obj fields := rfl
  have h3 : renderTiles (fetchStatsResume s (.fulfilled (.obj fields))) =
      .ok (.tiles
          [.expr (((lookupField "total_users" fields).getD .undefined).or (.num "0"))]
          [.expr (((lookupField "active_subscriptions" fields).getD .undefined).or (.num "0"))]
          [.expr (((lookupField "expired_subscriptions" fields).getD .undefined).or (.num "0"))]
          [.expr (((lookupField "total_revenue" fields).getD .undefined).or (.num "0")),
            .text " UAH"]) := rfl
  simp only [render, h1, h2, h3, htr]
  rfl

theorem display_of_render (s : State) (screen : Screen) (h : render s = .ok screen)
    (hok : screen.childrenOk = true) : display s = .ok screen := by
  simp [display, h, hok]

/-- C8 as stated fails: a statistics response can lack all four fields and still
show no tile.  With the body `{ recent_transactions: [null] }` the table's row
function throws on `transaction.telegram_user_id`; with the body
`{ total_revenue: {} }` React refuses the object as a child.  Either way the
component is taken off the page, so no tile shows 0. -/
theorem absent_fields_no_tiles :
    lookupField "total_users" [("recent_transactions", JVal.arr [.null])] = none ∧
      lookupField "total_revenue" [("recent_transactions", JVal.arr [.null])] = none ∧
      (run mount [.settle 0 (.fulfilled (.obj [("recent_transactions", .arr [.null])]))]).map
        display = some (.error .typeError) ∧
      lookupField "total_users" [("total_revenue", JVal.obj [])] = none ∧
      (run mount [.settle 0 (.fulfilled (.obj [("total_revenue", .obj [])]))]).map
        display = some (.error .invalidChild) := by
  exact ⟨rfl, rfl, rfl, rfl, rfl⟩

/-- C8 (amended): take a statistics response that is an object in which none of
`total_users`, `active_subscriptions`, `expired_subscriptions`, `total_revenue`
is an array or object, settled while the statistics view is active.  Whenever its
transaction table can be shown, and in particular when `recent_transactions` is
absent or empty (the table then reads 'No recent transactions'), the page shows
the four tiles, and for each field: when it is absent the tile shows '0' (the
revenue tile '0 UAH'), and when it is a non-zero number the tile shows the text
JavaScript prints for that number (followed by ' UAH' on the revenue tile). -/
theorem stats_tiles_shown (s : State) (fields : List (String × JVal))
    (htab : s.activeTab = Tab.stats)
    (hfields : ∀ key ∈ ["total_users", "active_subscriptions", "expired_subscriptions",
      "total_revenue"], ((lookupField key fields).getD .undefined).isScalar = true) :
    ∃ users active expired revenue,
      (∀ tr, renderTransactions (.obj fields) = .ok tr → tr.childrenOk = true →
        display (fetchStatsResume s (.fulfilled (.obj fields))) =
          .ok (.stats (.tiles users active expired revenue) tr)) ∧
      ((lookupField "recent_transactions" fields = none ∨
          lookupField "recent_transactions" fields = some (.arr [])) →
        display (fetchStatsResume s (.fulfilled (.obj fields))) =
          .ok (.stats (.tiles users active expired revenue)
            (.empty "No recent transactions"))) ∧
      (lookupField "total_users" fields = none → cellText users = some "0") ∧
      (∀ t, t ≠ "0" → t ≠ "NaN" → lookupField "total_users" fields = some (.num t) →
        cellText users = some t) ∧
      (lookupField "active_subscriptions" fields = none → cellText active = some "0") ∧
      (∀ t, t ≠ "0" → t ≠ "NaN" →
        lookupField "active_subscriptions" fields = some (.num t) →
        cellText active = some t) ∧
      (lookupField "expired_subscriptions" fields = none → cellText expired = some "0") ∧
      (∀ t, t ≠ "0" → t ≠ "NaN" →
        lookupField "expired_subscriptions" fields = some (.num t) →
        cellText expired = some t) ∧
      (lookupField "total_revenue" fields = none → cellText revenue = some "0 UAH") ∧
      (∀ t, t ≠ "0" → t ≠ "NaN" → lookupField "total_revenue" fields = some (.num t) →
        cellText revenue = some (t ++ " UAH")) := by
  have hshow : ∀ tr, renderTransactions (.obj fields) = .ok tr → tr.childrenOk = true →
      display (fetchStatsResume s (.fulfilled (.obj fields))) =
        .ok (.stats
          (.tiles
            [.expr (((lookupField "total_users" fields).getD .undefined).or (.num "0"))]
            [.expr (((lookupField "active_subscriptions" fields).getD .undefined).or
              (.num "0"))]
            [.expr (((lookupField "expired_subscriptions" fields).getD .undefined).or
              (.num "0"))]
            [.expr (((lookupField "total_revenue" fields).getD .undefined).or (.num "0")),
              .text " UAH"])
          tr) := by
    intro tr htr hok
    apply display_of_render _ _ (render_stats_settled s fields tr htab htr)
    have h1 := cellOk_expr _ (or_isScalar _ (.num "0") (hfields "total_users" (by simp)) rfl)
    have h2 := cellOk_expr _
      (or_isScalar _ (.num "0") (hfields "active_subscriptions" (by simp)) rfl)
    have h3 := cellOk_expr _
      (or_isScalar _ (.num "0") (hfields "expired_subscriptions" (by simp)) rfl)
    have h4 := cellOk_expr_text _ " UAH"
      (or_isScalar _ (.num "0") (hfields "total_revenue" (by simp)) rfl)
    simp [Screen.childrenOk, Tiles.childrenOk, h1, h2, h3, h4, hok]
  refine ⟨_, _, _, _, hshow, ?_, ?_, ?_, ?_, ?_, ?_, ?_, ?_, ?_⟩
  · intro h
    exact hshow _ (renderTransactions_empty fields h) rfl
  · intro h
    rw [orZero_absent fields _ h]
    decide
  · intro t h0 hn h
    rw [orZero_number fields _ t h0 hn h]
    simp [cellText, JVal.childText]
  · intro h
    rw [orZero_absent fields _ h]
    decide
  · intro t h0 hn h
    rw [orZero_number fields _ t h0 hn h]
    simp [cellText, JVal.childText]
  · intro h
    rw [orZero_absent fields _ h]
    decide
  · intro t h0 hn h
    rw [orZero_number fields _ t h0 hn h]
    simp [cellText, JVal.childText]
  · intro h
    rw [orZero_absent fields _ h]
    decide
  · intro t h0 hn h
    rw [orZero_number fields _ t h0 hn h]
    simp [cellText, JVal.childText]

theorem stats_tiles_shown_witness :
    mount.activeTab = Tab.stats ∧
      ∃ users active expired revenue,
        display (fetchStatsResume mount (.fulfilled scenarioStats)) =
          .ok (.stats (.tiles users active expired revenue)
            (.empty "No recent transactions")) ∧
        cellText users = some "5" ∧ cellText active = some "3" ∧
        cellText expired = some "2" ∧ cellText revenue = some "1500 UAH" :=
  ⟨rfl,
    let ⟨u, a, e, r, _, hshow, _, hu, _, ha, _, he, _, hr⟩ :=
      stats_tiles_shown mount
        [("total_users", .num "5"), ("active_subscriptions", .num "3"),
          ("expired_subscriptions", .num "2"), ("total_revenue", .num "1500"),
          ("recent_transactions", .arr [])]
        rfl (by decide)
    ⟨u, a, e, r, hshow (Or.inr rfl), hu "5" (by decide) (by decide) rfl,
      ha "3" (by decide) (by decide) rfl, he "2" (by decide) (by decide) rfl,
      hr "1500" (by decide) (by decide) rfl⟩⟩

theorem mapM_obj_ok {β : Type} (f : JVal → Except JsError β)
    (g : List (String × JVal) → β) (h : ∀ r, f (.obj r) = .ok (g r))
    (records : List (List (String × JVal))) :
    (records.map JVal.obj).mapM f = .ok (records.map g) := by
  induction records with
  | nil => rfl
  | cons r rest ih =>
    simp only [List.map_cons, List.mapM_cons, h, ih]
    rfl

theorem subscriberRow_obj :
    ∃ g : List (String × JVal) → SubscriberRow, ∀ r,
      subscriberRow (.obj r) = .ok (g r) ∧
      (g r).username = [.text "@",
        .expr (((lookupField "telegram_username" r).getD .undefined).or
          (.str ("ID" ++ ((lookupField "telegram_user_id" r).getD .undefined).toJsString)))] ∧
      (g r).email = [.expr (((lookupField "email" r).getD .undefined).or (.str "N/A"))] ∧
      (g r).amount = [.expr ((lookupField "amount" r).getD .undefined), .text " ",
        .expr ((lookupField "currency" r).getD .undefined)] :=
  ⟨fun r =>
    { username := [.text "@",
        .expr (((lookupField "telegram_username" r).getD .undefined).or
          (.str ("ID" ++ ((lookupField "telegram_user_id" r).getD .undefined).toJsString)))]
      email := [.expr (((lookupField "email" r).getD .undefined).or (.str "N/A"))]
      current_period_end := (lookupField "current_period_end" r).getD .undefined
      amount := [.expr ((lookupField "amount" r).getD .undefined), .text " ",
        .expr ((lookupField "currency" r).getD .undefined)]
      created_at := (lookupField "created_at" r).getD .undefined },
    fun _ => ⟨rfl, rfl, rfl, rfl⟩⟩

theorem render_subscribers_table (s : State) (records : List (List (String × JVal)))
    (g : List (String × JVal) → SubscriberRow)
    (hg : ∀ r, subscriberRow (.obj r) = .ok (g r))
    (htab : s.activeTab = Tab.subscribers) (hload : s.loading = false)
    (hsub : s.subscribers = .arr (records.map JVal.obj)) (hne : records ≠ []) :
    render s = .ok (.subscribers false "Refresh" (.table (records.map g))) := by
  have hfilled : nonEmpty (.arr (records.map JVal.obj)) = .ok true := by
    cases records with
    | nil => exact absurd rfl hne
    | cons r rest => simp [nonEmpty]
  have hlist : renderSubscriberList s = .ok (.table (records.map g)) := by
    simp only [renderSubscriberList, hload, hsub, hfilled,
      mapM_obj_ok subscriberRow g hg records]
    rfl
  simp only [render, htab, hlist, hload]
  rfl

/-- C9 as stated fails.  The subscriber response below has a record with
username 'alice' and email 'a@x.com', and a record whose `telegram_username` and
`email` are present but empty.  The first username cell reads '@alice', not the
bare username; the second record's cells read '@ID42' and 'N/A' although both
fields are present.  And for the list `[null]` the row function throws, so no
cell is shown at all. -/
theorem subscriber_cells_differ :
    (run mount [.clickTab .subscribers,
        .settle 1 (.fulfilled (.obj [("subscribers", .arr [
          .obj [("telegram_username", .str "alice"), ("telegram_user_id", .num "7"),
            ("email", .str "a@x.com")],
          .obj [("telegram_username", .str ""), ("telegram_user_id", .num "42"),
            ("email", .str "")]])]))]).map
      (fun s => (display s).toOption.map (fun screen =>
        match screen with
        | .subscribers _ _ (.table rows) =>
          rows.map (fun row => (cellText row.username, cellText row.email))
        | _ => [])) =
      some (some [(some "@alice", some "a@x.com"), (some "@ID42", some "N/A")]) ∧
    (run mount [.clickTab .subscribers,
        .settle 1 (.fulfilled (.obj [("subscribers", .arr [.null])]))]).map display =
      some (.error .typeError) := by
  exact ⟨by decide, rfl⟩

/-- C9 (amended): take a non-empty subscriber list shown on the subscribers view
(not loading) whose records are objects in which none of `telegram_username`,
`email`, `amount`, `currency` is an array or object.  The page shows one row per
record, in order, and in the row of each record: the username cell reads '@'
followed by `telegram_username` when that is a non-empty string, and '@ID'
followed by the text of `telegram_user_id` when the username is absent, `null`
or empty; the email cell reads `email` when that is a non-empty string and 'N/A'
when it is absent, `null` or empty. -/
theorem subscriber_cells (s : State) (records : List (List (String × JVal)))
    (htab : s.activeTab = Tab.subscribers) (hload : s.loading = false)
    (hsub : s.subscribers = .arr (records.map JVal.obj)) (hne : records ≠ [])
    (hwf : ∀ r ∈ records, ∀ key ∈ ["telegram_username", "email", "amount", "currency"],
      ((lookupField key r).getD .undefined).isScalar = true) :
    ∃ rows, display s = .ok (.subscribers false "Refresh" (.table rows)) ∧
      rows.length = records.length ∧
      ∀ (i : Nat) (r : List (String × JVal)) (row : SubscriberRow),
        records[i]? = some r → rows[i]? = some row →
        (∀ u, u ≠ "" → lookupField "telegram_username" r = some (.str u) →
          cellText row.username = some ("@" ++ u)) ∧
        ((lookupField "telegram_username" r = none ∨
            lookupField "telegram_username" r = some .null ∨
            lookupField "telegram_username" r = some (.str "")) →
          ∀ t, (lookupField "telegram_user_id" r = some (.str t) ∨
              lookupField "telegram_user_id" r = some (.num t)) →
            cellText row.username = some ("@ID" ++ t)) ∧
        (∀ e, e ≠ "" → lookupField "email" r = some (.str e) →
          cellText row.email = some e) ∧
        ((lookupField "email" r = none ∨ lookupField "email" r = some .null ∨
            lookupField "email" r = some (.str "")) →
          cellText row.email = some "N/A") := by
  obtain ⟨g, hg⟩ := subscriberRow_obj
  have hrender := render_subscribers_table s records g (fun r => (hg r).1) htab hload hsub hne
  have hok : (Screen.subscribers false "Refresh" (.table (records.map g))).childrenOk = true := by
    simp only [Screen.childrenOk, SubscriberList.childrenOk, List.all_eq_true, List.mem_map]
    rintro row ⟨r, hr, rfl⟩
    obtain ⟨_, hu, he, ha⟩ := hg r
    have h1 := cellOk_text_expr "@" _
      (or_isScalar _ (.str ("ID" ++ ((lookupField "telegram_user_id" r).getD .undefined).toJsString))
        (hwf r hr "telegram_username" (by simp)) rfl)
    have h2 := cellOk_expr _ (or_isScalar _ (.str "N/A") (hwf r hr "email" (by simp)) rfl)
    have h3 := cellOk_expr_text_expr _ _ " " (hwf r hr "amount" (by simp))
      (hwf r hr "currency" (by simp))
    simp [SubscriberRow.childrenOk, hu, he, ha, h1, h2, h3]
  refine ⟨records.map g, display_of_render s _ hrender hok, by simp, ?_⟩
  intro i r row hr hrow
  rw [List.getElem?_map, hr] at hrow
  cases hrow
  obtain ⟨_, hu, he, _⟩ := hg r
  refine ⟨?_, ?_, ?_, ?_⟩
  · intro u hne h
    rw [hu, h]
    simp [JVal.or, JVal.truthy, hne, cellText, JVal.childText]
  · intro h t ht
    have hfalsy : ((lookupField "telegram_username" r).getD .undefined).truthy = false := by
      rcases h with h | h | h <;> rw [h] <;> rfl
    have hid : ((lookupField "telegram_user_id" r).getD .undefined).toJsString = t := by
      rcases ht with ht | ht <;> rw [ht] <;> simp [JVal.toJsString]
    rw [hu, hid]
    simp [JVal.or, hfalsy, cellText, JVal.childText]
    rw [← String.append_assoc]
    rfl
  · intro e hne h
    rw [he, h]
    simp [JVal.or, JVal.truthy, hne, cellText, JVal.childText]
  · intro h
    have hfalsy : ((lookupField "email" r).getD .undefined).truthy = false := by
      rcases h with h | h | h <;> rw [h] <;> rfl
    rw [he]
    simp [JVal.or, hfalsy, cellText, JVal.childText]

theorem subscriber_cells_witness :
    ∃ rows row,
      display (fetchSubscribersResume { initial with activeTab := .subscribers }
        (.fulfilled (.obj [("subscribers", .arr [.obj [("telegram_user_id", .num "42")]])]))) =
        .ok (.subscribers false "Refresh" (.table rows)) ∧
      rows = [row] ∧ cellText row.username = some "@ID42" ∧
      cellText row.email = some "N/A" := by
  obtain ⟨rows, hshown, hlen, hrows⟩ :=
    subscriber_cells
      (fetchSubscribersResume { initial with activeTab := .subscribers }
        (.fulfilled (.obj [("subscribers", .arr [.obj [("telegram_user_id", .num "42")]])])))
      [[("telegram_user_id", .num "42")]] rfl rfl rfl (by simp) (by decide)
  match rows, hlen, hshown, hrows with
  | [row], _, hshown, hrows =>
    obtain ⟨_, hid, _, hmail⟩ := hrows 0 _ row rfl rfl
    exact ⟨[row], row, hshown, rfl, hid (Or.inl rfl) "42" (Or.inr rfl), hmail (Or.inl rfl)⟩

/-- C10: the submit button exists only on the add-subscriber tab, so in every
reachable state a continuation of `addSubscriber` in flight captured
`activeTab = 'add-subscriber'`; that captured value, not the tab active when the
response arrives, is what the continuation tests.  Hence when a response with a
truthy `success` settles such a request, the confirmation is shown, the form
reset and `loading` cleared, and no request is sent: no subscriber-list fetch
follows, whatever tab is active by then. -/
theorem add_success_never_refetches (s : State) (hr : Reachable s) (id : Nat) (tab : Tab)
    (hp : s.pending.find? (fun p => p.id == id) = some { id := id, cont := .addSubscriber tab })
    (data success : JVal) (hs : data.getProp "success" = .ok success)
    (ht : success.truthy = true) :
    (∀ s0 s1, step s0 .clickAddSubscriber = some s1 → s0.activeTab = Tab.addSubscriber) ∧
      tab = Tab.addSubscriber ∧
      step s (.settle id (.fulfilled data)) =
        some { s with
          loading := false
          newSubscriber := emptyForm
          pending := s.pending.filter (fun q => q.id != id)
          log := s.log ++ [.alert (.str "Subscriber added successfully!")] } := by
  have htab : tab = Tab.addSubscriber := by
    obtain ⟨events, hrun⟩ := hr
    exact run_capturedAddTab events mount s hrun mount_capturedAddTab _
      (List.mem_of_find?_eq_some hp) tab rfl
  refine ⟨?_, htab, ?_⟩
  · intro s0 s1 h
    simp only [step] at h
    split at h
    · next hg => exact hg.1
    · cases h
  · subst htab
    simp only [step, hp, resume, addSubscriberResume, hs, ht]
    rfl

theorem add_success_never_refetches_witness :
    Reachable switchedWhileAdding ∧ switchedWhileAdding.activeTab = Tab.subscribers ∧
      step switchedWhileAdding
          (.settle 1 (.fulfilled (.obj [("success", .bool true), ("id", .num "7")]))) =
        some { switchedWhileAdding with
          loading := false
          newSubscriber := emptyForm
          pending := switchedWhileAdding.pending.filter (fun q => q.id != 1)
          log := switchedWhileAdding.log ++ [.alert (.str "Subscriber added successfully!")] } :=
  ⟨switchedWhileAdding_reachable, rfl,
    (add_success_never_refetches switchedWhileAdding switchedWhileAdding_reachable 1
      .addSubscriber rfl (.obj [("success", .bool true), ("id", .num "7")]) (.bool true)
      rfl rfl).2.2⟩

end App
